import Mathlib

/-!
Verification of the QMC5883L magnetometer driver (Go package `qmc5883l`).

The driver is shallowly embedded: register constants and pure helpers are
translated directly; the I2C bus is an oracle of fallible register
operations, and every driver call additionally returns the list of bus
operations it issued, in order, so that claims about which registers are
touched can be stated and proved.
-/

namespace QMC5883L

/-- default i2c bus number (`DfltBus = 1`). -/
def DfltBus : Int := 1

/-- default i2c device address (`DfltAddress = 0x0d`). -/
def DfltAddress : Nat := 0x0d

/-- x-axis LSB output register. -/
def RegXoutLSB : Nat := 0x00

/-- y-axis LSB output register. -/
def RegYoutLSB : Nat := 0x02

/-- z-axis LSB output register. -/
def RegZoutLSB : Nat := 0x04

/-- temperature LSB output register. -/
def RegToutLSB : Nat := 0x07

/-- Status Register #1. -/
def RegStatus1 : Nat := 0x06

/-- Data Ready status bit. -/
def StatDRDY : Nat := 0x01

/-- Overflow flag status bit. -/
def StatOVL : Nat := 0x02

/-- Data skipped for reading status bit. -/
def StatDOR : Nat := 0x04

/-- Control Register #1. -/
def RegControl1 : Nat := 0x09

/-- Standby mode. -/
def ModeSTBY : Nat := 0x00

/-- Continuous read mode. -/
def ModeCONT : Nat := 0x01

/-- Output Data Rate 10 Hz. -/
def Odr10HZ : Nat := 0x00

/-- Output Data Rate 50 Hz. -/
def Odr50HZ : Nat := 0x04

/-- Output Data Rate 100 Hz. -/
def Odr100HZ : Nat := 0x08

/-- Output Data Rate 200 Hz. -/
def Odr200HZ : Nat := 0x0c

/-- Range 2 Gauss. -/
def Rng2G : Nat := 0x00

/-- Range 8 Gauss. -/
def Rng8G : Nat := 0x10

/-- Over Sample Rate 512. -/
def Osr512 : Nat := 0x00

/-- Over Sample Rate 256. -/
def Osr256 : Nat := 0x40

/-- Over Sample Rate 128. -/
def Osr128 : Nat := 0x80

/-- Over Sample Rate 64. -/
def Osr64 : Nat := 0xc0

/-- Control Register #2. -/
def RegControl2 : Nat := 0x0a

/-- Soft Reset bit of Control Register #2. -/
def SoftRst : Nat := 0x80

/-- SET/RESET Period Register. -/
def RegRstPeriod : Nat := 0x0b

/-- Chip ID register. -/
def RegChipID : Nat := 0x0d

/-- `complement2` from the source: the two's-complement decode of a 16-bit
word.  `int16(int(val) - 0x10000)` when `val >= 0x8000`, else `int16(val)`;
for inputs below 2^16 no wrap occurs, so the result is modelled on `Int`. -/
def complement2 (val : Nat) : Int :=
  if val ≥ 0x8000 then (val : Int) - 0x10000 else (val : Int)

/-- Modelled from the spec: re-encoding a signed value as an unsigned 16-bit
two's-complement word (the repository has no explicit encoder; the spec's
round-trip property `encode(decode(v)) == v` needs one). -/
def encode16 (x : Int) : Nat := (x % 65536).toNat

/-- One operation issued to the I2C bus, recorded in order of issue.
`openBus` records the `i2c.NewI2C(address, i2cBus)` call made by `New`. -/
inductive BusOp where
  | openBus : Nat → Int → BusOp
  | readU8 : Nat → BusOp
  | readU16 : Nat → BusOp
  | writeU8 : Nat → Nat → BusOp
deriving DecidableEq, Repr

/-- The `*i2c.I2C` bus handle, as an oracle over register operations
(`ReadRegU8`, `ReadRegU16LE`, `WriteRegU8`), each fallible with a bus
error of type `ε`. -/
structure Bus (ε : Type) where
  readRegU8 : Nat → Except ε Nat
  readRegU16LE : Nat → Except ε Nat
  writeRegU8 : Nat → Nat → Except ε Unit

/-- An error returned by the driver: either a bus-transport error
propagated unchanged, or a message the driver created with `errors.New`. -/
inductive DriverError (ε : Type) where
  | bus : ε → DriverError ε
  | msg : String → DriverError ε
deriving DecidableEq, Repr

/-- The `QMC5883L` chip handle struct: bus/address identity and the three
stored configuration fields (the `bus` pointer is kept outside the struct,
passed to each operation). -/
structure QMC where
  i2cBus : Int
  address : Nat
  outputDataRate : Nat
  outputRange : Nat
  oversamplingRate : Nat
deriving DecidableEq, Repr

/-- `ReadWord`: read a two-byte little-endian value and decode it with
`complement2`.  The Go wrapper returns `complement2(val)` alongside the
error; on a failed bus read the underlying library yields the zero value,
so the decoded component is `complement2 0`. -/
def ReadWord (bus : Bus ε) (registry : Nat) : Int × Option ε :=
  match bus.readRegU16LE registry with
  | .ok val => (complement2 val, none)
  | .error e => (complement2 0, some e)

/-- `SetMode`: store the three configuration fields, then write
`mode|odr|rng|osr` to Control Register 1.  Returns the updated struct, the
write's error if any, and the bus operations issued.  The source assigns
the fields before issuing the write, so they are updated regardless of the
write's outcome. -/
def SetMode (q : QMC) (bus : Bus ε) (mode odr rng osr : Nat) :
    QMC × Option ε × List BusOp :=
  let q := { q with outputDataRate := odr, outputRange := rng,
                    oversamplingRate := osr }
  match bus.writeRegU8 RegControl1 (mode ||| odr ||| rng ||| osr) with
  | .ok _ => (q, none, [.writeU8 RegControl1 (mode ||| odr ||| rng ||| osr)])
  | .error e =>
      (q, some e, [.writeU8 RegControl1 (mode ||| odr ||| rng ||| osr)])

/-- Result of `GetMagnetRaw`: the three decoded axis values, the returned
error if any, and the bus operations issued in order. -/
structure MagnetResult (ε : Type) where
  x : Int
  y : Int
  z : Int
  err : Option (DriverError ε)
  trace : List BusOp
deriving DecidableEq, Repr

/-- `GetMagnetRaw`: read Status Register 1, then branch on its bits in
strict if/else-if order: overflow, data-ready, data-skipped, none.  The
overflow message gains the range hint when the stored range is `Rng2G`;
the data-ready branch reads X, Y, Z in order, aborting on the first
failure; the data-skipped branch reads and discards the temperature word,
returning the discard read's own error when it fails. -/
def GetMagnetRaw (q : QMC) (bus : Bus ε) : MagnetResult ε :=
  match bus.readRegU8 RegStatus1 with
  | .error e => ⟨0, 0, 0, some (.bus e), [.readU8 RegStatus1]⟩
  | .ok status =>
    if status &&& StatOVL = StatOVL then
      let msg := "Magnetic sensor overflow."
      let msg := if q.outputRange = Rng2G then
          msg ++ " Consider switching to Rng8G output range."
        else msg
      ⟨0, 0, 0, some (.msg msg), [.readU8 RegStatus1]⟩
    else if status &&& StatDRDY = StatDRDY then
      match ReadWord bus RegXoutLSB with
      | (x, some e) =>
          ⟨x, 0, 0, some (.bus e),
           [.readU8 RegStatus1, .readU16 RegXoutLSB]⟩
      | (x, none) =>
        match ReadWord bus RegYoutLSB with
        | (y, some e) =>
            ⟨x, y, 0, some (.bus e),
             [.readU8 RegStatus1, .readU16 RegXoutLSB, .readU16 RegYoutLSB]⟩
        | (y, none) =>
          match ReadWord bus RegZoutLSB with
          | (z, oe) =>
              ⟨x, y, z, oe.map .bus,
               [.readU8 RegStatus1, .readU16 RegXoutLSB,
                .readU16 RegYoutLSB, .readU16 RegZoutLSB]⟩
    else if status &&& StatDOR = StatDOR then
      match ReadWord bus RegToutLSB with
      | (_, none) =>
          ⟨0, 0, 0, some (.msg "data skipped for reading"),
           [.readU8 RegStatus1, .readU16 RegToutLSB]⟩
      | (_, some e) =>
          ⟨0, 0, 0, some (.bus e),
           [.readU8 RegStatus1, .readU16 RegToutLSB]⟩
    else
      ⟨0, 0, 0, none, [.readU8 RegStatus1]⟩

/-- `New`: substitute the defaults for a zero bus id or address, open the
bus handle on the substituted pair, write `0x01` to the SET/RESET period
register, write the soft-reset bit to Control Register 2, then apply the
default configuration through `SetMode` (whose returned error the source
discards).  A failed open or failed reset write is fatal (`log.Fatal`),
modelled as `Except.error`. -/
def New (i2cBus : Int) (address : Nat)
    (openI2C : Nat → Int → Except ε (Bus ε)) :
    Except ε (QMC × Bus ε × List BusOp) :=
  let i2cBus := if i2cBus = 0 then DfltBus else i2cBus
  let address := if address = 0 then DfltAddress else address
  match openI2C address i2cBus with
  | .error e => .error e
  | .ok bus =>
    let q : QMC :=
      { i2cBus := i2cBus, address := address, outputDataRate := Odr10HZ,
        outputRange := Rng2G, oversamplingRate := Osr512 }
    match bus.writeRegU8 RegRstPeriod 0x01 with
    | .error e => .error e
    | .ok _ =>
      match bus.writeRegU8 RegControl2 SoftRst with
      | .error e => .error e
      | .ok _ =>
        let r := SetMode q bus ModeCONT q.outputDataRate q.outputRange
          q.oversamplingRate
        .ok (r.1, bus,
          .openBus address i2cBus :: .writeU8 RegRstPeriod 0x01 ::
            .writeU8 RegControl2 SoftRst :: r.2.2)

/-- A bus on which every register operation fails, for exercising the
bus-failure paths. -/
def failBus : Bus Unit :=
  ⟨fun _ => .error (), fun _ => .error (), fun _ _ => .error ()⟩

/-- A driver struct holding the default configuration
(10 Hz, 2 Gauss, oversampling 512). -/
def qDefault : QMC := ⟨1, 0x0d, Odr10HZ, Rng2G, Osr512⟩

/-- A bus whose status register reads as `0x02`: only the overflow bit. -/
def ovlBus : Bus Unit :=
  ⟨fun _ => .ok 0x02, fun _ => .ok 0, fun _ _ => .ok ()⟩

/-- A bus whose status register reads as `0x07`: overflow, data-ready and
data-skipped all set. -/
def allBitsBus : Bus Unit :=
  ⟨fun _ => .ok 0x07, fun _ => .ok 0, fun _ _ => .ok ()⟩

/-- A bus whose status register reads as `0x00`: no flag set. -/
def zeroBus : Bus Unit :=
  ⟨fun _ => .ok 0x00, fun _ => .ok 0, fun _ _ => .ok ()⟩

/-- A bus whose status register reads as `0x01` (data ready) but whose
word reads all fail. -/
def xFailBus : Bus Unit :=
  ⟨fun _ => .ok 0x01, fun _ => .error (), fun _ _ => .ok ()⟩

/-- A bus whose status register reads as `0x04` (data skipped) and whose
word reads all fail. -/
def dorFailBus : Bus Unit :=
  ⟨fun _ => .ok 0x04, fun _ => .error (), fun _ _ => .ok ()⟩

/-- A bus whose status register reads as `0x04` (data skipped) and whose
word reads all succeed. -/
def dorOkBus : Bus Unit :=
  ⟨fun _ => .ok 0x04, fun _ => .ok 0, fun _ _ => .ok ()⟩

/-- A bus on which every register operation succeeds, reads yielding 0. -/
def okBus : Bus Unit :=
  ⟨fun _ => .ok 0, fun _ => .ok 0, fun _ _ => .ok ()⟩

/-- A bus opener that always succeeds, yielding `okBus`. -/
def okOpen : Nat → Int → Except Unit (Bus Unit) := fun _ _ => .ok okBus

/-- The bus-operation trace `New 0 0 okOpen` produces. -/
def trNew : List BusOp :=
  [.openBus 0x0d 1, .writeU8 RegRstPeriod 0x01, .writeU8 RegControl2 SoftRst,
   .writeU8 RegControl1 0x01]

end QMC5883L

namespace QMC5883L

/-- C1: for every 16-bit word `v`, `complement2` returns `v` when
`v < 0x8000` and `v - 65536` when `v ≥ 0x8000`; re-encoding the decoded
value as an unsigned 16-bit word gives back `v`; and the words `0x0001`,
`0xFFFF`, `0x8000` decode to `+1`, `-1`, `-32768` respectively. -/
theorem complement2_decode_encode (v : Nat) (h : v < 65536) :
    (v < 0x8000 → complement2 v = (v : Int)) ∧
    (0x8000 ≤ v → complement2 v = (v : Int) - 65536) ∧
    encode16 (complement2 v) = v ∧
    complement2 0x0001 = 1 ∧ complement2 0xFFFF = -1 ∧
    complement2 0x8000 = -32768 := by
  refine ⟨?_, ?_, ?_, by decide, by decide, by decide⟩
  · intro hv
    simp only [complement2]
    split <;> omega
  · intro hv
    simp only [complement2]
    split <;> omega
  · simp only [complement2, encode16]
    split <;> omega

/-- C7: `SetMode` issues exactly one write, of the byte
`mode ||| odr ||| rng ||| osr`, to Control Register 1 at address `0x09`,
for every combination of arguments, and the enum encodings are the claimed
constants. -/
theorem SetMode_writes_packed_byte (q : QMC) (bus : Bus ε)
    (mode odr rng osr : Nat) :
    (SetMode q bus mode odr rng osr).2.2 =
      [BusOp.writeU8 RegControl1 (mode ||| odr ||| rng ||| osr)] ∧
    RegControl1 = 0x09 ∧
    ModeSTBY = 0x00 ∧ ModeCONT = 0x01 ∧
    Odr10HZ = 0x00 ∧ Odr50HZ = 0x04 ∧ Odr100HZ = 0x08 ∧ Odr200HZ = 0x0c ∧
    Rng2G = 0x00 ∧ Rng8G = 0x10 ∧
    Osr512 = 0x00 ∧ Osr256 = 0x40 ∧ Osr128 = 0x80 ∧ Osr64 = 0xc0 := by
  refine ⟨?_, by decide, by decide, by decide, by decide, by decide,
    by decide, by decide, by decide, by decide, by decide, by decide,
    by decide, by decide⟩
  simp only [SetMode]
  cases bus.writeRegU8 RegControl1 (mode ||| odr ||| rng ||| osr) <;> rfl

/-- C2 counterexample: starting from the default stored configuration and a
bus whose writes always fail, `SetMode` with new arguments leaves the
stored fields equal to the NEW values, not the previous known-good ones,
even though the write failed. -/
theorem SetMode_failed_write_keeps_new_state :
    (SetMode qDefault failBus ModeCONT Odr50HZ Rng8G Osr256).2.1 =
      some () ∧
    ¬((SetMode qDefault failBus ModeCONT Odr50HZ Rng8G Osr256).1.outputDataRate
        = qDefault.outputDataRate ∧
      (SetMode qDefault failBus ModeCONT Odr50HZ Rng8G Osr256).1.outputRange
        = qDefault.outputRange ∧
      (SetMode qDefault failBus ModeCONT Odr50HZ Rng8G Osr256).1.oversamplingRate
        = qDefault.oversamplingRate) := by
  decide

/-- C2 amended: `SetMode` assigns the three stored configuration fields to
the new arguments before issuing the write, so they hold the new values
after the call whether the write succeeded or failed; the identity fields
are unchanged. -/
theorem SetMode_updates_state_unconditionally (q : QMC) (bus : Bus ε)
    (mode odr rng osr : Nat) :
    (SetMode q bus mode odr rng osr).1.outputDataRate = odr ∧
    (SetMode q bus mode odr rng osr).1.outputRange = rng ∧
    (SetMode q bus mode odr rng osr).1.oversamplingRate = osr ∧
    (SetMode q bus mode odr rng osr).1.i2cBus = q.i2cBus ∧
    (SetMode q bus mode odr rng osr).1.address = q.address := by
  simp only [SetMode]
  cases bus.writeRegU8 RegControl1 (mode ||| odr ||| rng ||| osr) <;>
    exact ⟨rfl, rfl, rfl, rfl, rfl⟩

/-- C4: when the status read succeeds and the overflow bit is set,
`GetMagnetRaw` performs no further register reads (the trace is just the
status read) and returns the overflow error, which carries the
switch-to-wider-range hint exactly when the stored range is `Rng2G`. -/
theorem GetMagnetRaw_overflow (q : QMC) (bus : Bus ε) (s : Nat)
    (hst : bus.readRegU8 RegStatus1 = .ok s)
    (hovl : s &&& StatOVL = StatOVL) :
    (GetMagnetRaw q bus).trace = [BusOp.readU8 RegStatus1] ∧
    (GetMagnetRaw q bus).err = some (DriverError.msg
      (if q.outputRange = Rng2G then
        "Magnetic sensor overflow. Consider switching to Rng8G output range."
       else "Magnetic sensor overflow.")) := by
  have h1 : GetMagnetRaw q bus = ⟨0, 0, 0, some (DriverError.msg
      (if q.outputRange = Rng2G then
        "Magnetic sensor overflow. Consider switching to Rng8G output range."
       else "Magnetic sensor overflow.")), [BusOp.readU8 RegStatus1]⟩ := by
    simp only [GetMagnetRaw, hst, if_pos hovl]
    split <;> rfl
  exact ⟨by rw [h1], by rw [h1]⟩

/-- Witness for C4: on a bus reporting status `0x02`, the overflow error
with the 2-Gauss range hint is returned after only the status read. -/
theorem GetMagnetRaw_overflow_witness :
    (GetMagnetRaw qDefault ovlBus).trace = [BusOp.readU8 RegStatus1] ∧
    (GetMagnetRaw qDefault ovlBus).err = some (DriverError.msg
      (if qDefault.outputRange = Rng2G then
        "Magnetic sensor overflow. Consider switching to Rng8G output range."
       else "Magnetic sensor overflow.")) :=
  GetMagnetRaw_overflow qDefault ovlBus 0x02 rfl (by decide)

/-- C8: when the status read succeeds and none of the overflow,
data-ready, data-skipped bits is set, `GetMagnetRaw` returns `(0, 0, 0)`
with no error and performs no further register reads. -/
theorem GetMagnetRaw_noneReady (q : QMC) (bus : Bus ε) (s : Nat)
    (hst : bus.readRegU8 RegStatus1 = .ok s)
    (hovl : s &&& StatOVL ≠ StatOVL)
    (hdrdy : s &&& StatDRDY ≠ StatDRDY)
    (hdor : s &&& StatDOR ≠ StatDOR) :
    GetMagnetRaw q bus = ⟨0, 0, 0, none, [BusOp.readU8 RegStatus1]⟩ := by
  simp only [GetMagnetRaw, hst, if_neg hovl, if_neg hdrdy, if_neg hdor]

/-- Witness for C8: on a bus reporting status `0x00`, the all-zero,
no-error sample is returned after only the status read. -/
theorem GetMagnetRaw_noneReady_witness :
    GetMagnetRaw qDefault zeroBus =
      ⟨0, 0, 0, none, [BusOp.readU8 RegStatus1]⟩ :=
  GetMagnetRaw_noneReady qDefault zeroBus 0x00 rfl (by decide) (by decide)
    (by decide)

/-- C5: when the status read succeeds, only data-ready applies, and an
axis read fails, `GetMagnetRaw` aborts immediately — later axis registers
are not read — and returns the bus error with the partially-zero sample
accumulated so far; in particular a failed X read yields the error, never
an error-free all-zero success. -/
theorem GetMagnetRaw_axis_read_failure (q : QMC) (bus : Bus ε) (s : Nat)
    (hst : bus.readRegU8 RegStatus1 = .ok s)
    (hovl : s &&& StatOVL ≠ StatOVL)
    (hdrdy : s &&& StatDRDY = StatDRDY) :
    (∀ e, bus.readRegU16LE RegXoutLSB = .error e →
      GetMagnetRaw q bus = ⟨0, 0, 0, some (.bus e),
        [BusOp.readU8 RegStatus1, BusOp.readU16 RegXoutLSB]⟩) ∧
    (∀ vx e, bus.readRegU16LE RegXoutLSB = .ok vx →
      bus.readRegU16LE RegYoutLSB = .error e →
      GetMagnetRaw q bus = ⟨complement2 vx, 0, 0, some (.bus e),
        [BusOp.readU8 RegStatus1, BusOp.readU16 RegXoutLSB,
         BusOp.readU16 RegYoutLSB]⟩) ∧
    (∀ vx vy e, bus.readRegU16LE RegXoutLSB = .ok vx →
      bus.readRegU16LE RegYoutLSB = .ok vy →
      bus.readRegU16LE RegZoutLSB = .error e →
      GetMagnetRaw q bus = ⟨complement2 vx, complement2 vy, 0,
        some (.bus e),
        [BusOp.readU8 RegStatus1, BusOp.readU16 RegXoutLSB,
         BusOp.readU16 RegYoutLSB, BusOp.readU16 RegZoutLSB]⟩) := by
  refine ⟨fun e hx => ?_, fun vx e hx hy => ?_, fun vx vy e hx hy hz => ?_⟩
  · simp only [GetMagnetRaw, hst, if_neg hovl, if_pos hdrdy, ReadWord, hx]
    rfl
  · simp only [GetMagnetRaw, hst, if_neg hovl, if_pos hdrdy, ReadWord,
      hx, hy]
    rfl
  · simp only [GetMagnetRaw, hst, if_neg hovl, if_pos hdrdy, ReadWord,
      hx, hy, hz, Option.map]
    rfl

/-- Witness for C5: on a bus reporting status `0x01` whose X-axis word
read fails, the bus error is returned with the all-zero partial sample and
the trace stops at the X read. -/
theorem GetMagnetRaw_axis_read_failure_witness :
    GetMagnetRaw qDefault xFailBus = ⟨0, 0, 0, some (.bus ()),
      [BusOp.readU8 RegStatus1, BusOp.readU16 RegXoutLSB]⟩ :=
  (GetMagnetRaw_axis_read_failure qDefault xFailBus 0x01 rfl (by decide)
    (by decide)).1 () rfl

/-- C3 counterexample: with status `0x04` (only data-skipped) and a
failing temperature discard read, `GetMagnetRaw` returns the bus error of
the discard read — not the data-skipped classification — refuting the
claim that the classification is returned regardless of the discard read's
outcome. -/
theorem GetMagnetRaw_dataSkipped_counterexample :
    (GetMagnetRaw qDefault dorFailBus).err = some (.bus ()) ∧
    (GetMagnetRaw qDefault dorFailBus).err ≠
      some (.msg "data skipped for reading") ∧
    (GetMagnetRaw qDefault dorFailBus).trace =
      [BusOp.readU8 RegStatus1, BusOp.readU16 RegToutLSB] := by
  decide

/-- C3 amended: when the status read succeeds, the overflow and data-ready
bits are clear and the data-skipped bit is set, `GetMagnetRaw` performs
exactly one temperature-register read and returns the data-skipped
classification when that discard read succeeds; when the discard read
fails, the discard read's bus error is returned instead. -/
theorem GetMagnetRaw_dataSkipped (q : QMC) (bus : Bus ε) (s : Nat)
    (hst : bus.readRegU8 RegStatus1 = .ok s)
    (hovl : s &&& StatOVL ≠ StatOVL)
    (hdrdy : s &&& StatDRDY ≠ StatDRDY)
    (hdor : s &&& StatDOR = StatDOR) :
    (GetMagnetRaw q bus).trace =
      [BusOp.readU8 RegStatus1, BusOp.readU16 RegToutLSB] ∧
    (∀ v, bus.readRegU16LE RegToutLSB = .ok v →
      (GetMagnetRaw q bus).err =
        some (.msg "data skipped for reading")) ∧
    (∀ e, bus.readRegU16LE RegToutLSB = .error e →
      (GetMagnetRaw q bus).err = some (.bus e)) := by
  refine ⟨?_, fun v hv => ?_, fun e he => ?_⟩
  · simp only [GetMagnetRaw, hst, if_neg hovl, if_neg hdrdy, if_pos hdor,
      ReadWord]
    cases bus.readRegU16LE RegToutLSB <;> rfl
  · simp only [GetMagnetRaw, hst, if_neg hovl, if_neg hdrdy, if_pos hdor,
      ReadWord, hv]
  · simp only [GetMagnetRaw, hst, if_neg hovl, if_neg hdrdy, if_pos hdor,
      ReadWord, he]

/-- Witness for C3's amended claim: on a bus reporting status `0x04` with
a succeeding temperature read, exactly one temperature read happens and
the data-skipped classification is returned. -/
theorem GetMagnetRaw_dataSkipped_witness :
    (GetMagnetRaw qDefault dorOkBus).trace =
      [BusOp.readU8 RegStatus1, BusOp.readU16 RegToutLSB] ∧
    (GetMagnetRaw qDefault dorOkBus).err =
      some (.msg "data skipped for reading") :=
  ⟨(GetMagnetRaw_dataSkipped qDefault dorOkBus 0x04 rfl (by decide)
      (by decide) rfl).1,
   (GetMagnetRaw_dataSkipped qDefault dorOkBus 0x04 rfl (by decide)
      (by decide) rfl).2.1 0 rfl⟩

/-- C6: `GetMagnetRaw` classifies a successfully read status byte by
strict priority — overflow first, then data-ready, then data-skipped, then
none-ready — for every status value, bits being independent: with overflow
set (whatever the other bits) only the overflow branch runs; with overflow
clear and data-ready set (even if data-skipped is also set) only the
data-ready branch runs and the temperature register is never read. -/
theorem GetMagnetRaw_priority (q : QMC) (bus : Bus ε) (s : Nat)
    (hst : bus.readRegU8 RegStatus1 = .ok s) :
    (s &&& StatOVL = StatOVL →
      (GetMagnetRaw q bus).trace = [BusOp.readU8 RegStatus1] ∧
      (GetMagnetRaw q bus).err = some (DriverError.msg
        (if q.outputRange = Rng2G then
          "Magnetic sensor overflow. Consider switching to Rng8G output range."
         else "Magnetic sensor overflow."))) ∧
    (s &&& StatOVL ≠ StatOVL → s &&& StatDRDY = StatDRDY →
      (GetMagnetRaw q bus).trace.take 2 =
        [BusOp.readU8 RegStatus1, BusOp.readU16 RegXoutLSB] ∧
      BusOp.readU16 RegToutLSB ∉ (GetMagnetRaw q bus).trace) ∧
    (s &&& StatOVL ≠ StatOVL → s &&& StatDRDY ≠ StatDRDY →
      s &&& StatDOR = StatDOR →
      (GetMagnetRaw q bus).trace =
        [BusOp.readU8 RegStatus1, BusOp.readU16 RegToutLSB]) ∧
    (s &&& StatOVL ≠ StatOVL → s &&& StatDRDY ≠ StatDRDY →
      s &&& StatDOR ≠ StatDOR →
      GetMagnetRaw q bus = ⟨0, 0, 0, none, [BusOp.readU8 RegStatus1]⟩) := by
  refine ⟨fun hovl => ?_, fun hovl hdrdy => ?_, fun hovl hdrdy hdor => ?_,
    fun hovl hdrdy hdor => ?_⟩
  · have h1 : GetMagnetRaw q bus = ⟨0, 0, 0, some (DriverError.msg
        (if q.outputRange = Rng2G then
          "Magnetic sensor overflow. Consider switching to Rng8G output range."
         else "Magnetic sensor overflow.")), [BusOp.readU8 RegStatus1]⟩ := by
      simp only [GetMagnetRaw, hst, if_pos hovl]
      split <;> rfl
    exact ⟨by rw [h1], by rw [h1]⟩
  · cases hx : bus.readRegU16LE RegXoutLSB with
    | error e =>
      simp only [GetMagnetRaw, hst, if_neg hovl, if_pos hdrdy, ReadWord, hx]
      exact ⟨rfl, by decide⟩
    | ok vx =>
      cases hy : bus.readRegU16LE RegYoutLSB with
      | error e =>
        simp only [GetMagnetRaw, hst, if_neg hovl, if_pos hdrdy, ReadWord,
          hx, hy]
        exact ⟨rfl, by decide⟩
      | ok vy =>
        cases hz : bus.readRegU16LE RegZoutLSB with
        | error e =>
          simp only [GetMagnetRaw, hst, if_neg hovl, if_pos hdrdy, ReadWord,
            hx, hy, hz]
          exact ⟨rfl, by decide⟩
        | ok vz =>
          simp only [GetMagnetRaw, hst, if_neg hovl, if_pos hdrdy, ReadWord,
            hx, hy, hz]
          exact ⟨rfl, by decide⟩
  · simp only [GetMagnetRaw, hst, if_neg hovl, if_neg hdrdy, if_pos hdor,
      ReadWord]
    cases bus.readRegU16LE RegToutLSB <;> rfl
  · simp only [GetMagnetRaw, hst, if_neg hovl, if_neg hdrdy, if_neg hdor]

/-- Witness for C6: on a bus reporting status `0x07` (all three bits set)
only the overflow branch runs: the trace is just the status read and the
overflow error is returned. -/
theorem GetMagnetRaw_priority_witness :
    (GetMagnetRaw qDefault allBitsBus).trace = [BusOp.readU8 RegStatus1] ∧
    (GetMagnetRaw qDefault allBitsBus).err = some (DriverError.msg
      (if qDefault.outputRange = Rng2G then
        "Magnetic sensor overflow. Consider switching to Rng8G output range."
       else "Magnetic sensor overflow.")) :=
  (GetMagnetRaw_priority qDefault allBitsBus 0x07 rfl).1 (by decide)

/-- C9: every successful construction issues, in order, a write of `0x01`
to the SET/RESET-period register `0x0b`, a write of the soft-reset bit
`0x80` to Control Register 2 at `0x0a`, and — through `SetMode` with the
default configuration (Continuous, 10 Hz, 2 Gauss, oversampling 512) — a
write of the packed default byte to Control Register 1 at `0x09`; the
returned struct stores the default configuration. -/
theorem New_init_sequence (i2cBus : Int) (address : Nat)
    (openI2C : Nat → Int → Except ε (Bus ε)) (q : QMC) (bus : Bus ε)
    (tr : List BusOp)
    (h : New i2cBus address openI2C = .ok (q, bus, tr)) :
    tr = [BusOp.openBus q.address q.i2cBus,
          BusOp.writeU8 RegRstPeriod 0x01,
          BusOp.writeU8 RegControl2 SoftRst,
          BusOp.writeU8 RegControl1
            (ModeCONT ||| Odr10HZ ||| Rng2G ||| Osr512)] ∧
    q.outputDataRate = Odr10HZ ∧ q.outputRange = Rng2G ∧
    q.oversamplingRate = Osr512 ∧
    RegRstPeriod = 0x0b ∧ RegControl2 = 0x0a ∧ SoftRst = 0x80 ∧
    RegControl1 = 0x09 ∧
    (ModeCONT ||| Odr10HZ ||| Rng2G ||| Osr512) = 0x01 := by
  simp only [New, SetMode] at h
  split at h
  · exact Except.noConfusion h
  · split at h
    · exact Except.noConfusion h
    · split at h
      · exact Except.noConfusion h
      · split at h
        all_goals
          simp only [Except.ok.injEq, Prod.mk.injEq] at h
          obtain ⟨hq, _, htr⟩ := h
          subst hq
          subst htr
          exact ⟨rfl, rfl, rfl, rfl, rfl, rfl, rfl, rfl, by decide⟩

/-- Witness for C9: `New 0 0 okOpen` succeeds with the trace `trNew`,
which is exactly the three writes after the bus open, and stores the
default configuration. -/
theorem New_init_sequence_witness :
    trNew = [BusOp.openBus qDefault.address qDefault.i2cBus,
             BusOp.writeU8 RegRstPeriod 0x01,
             BusOp.writeU8 RegControl2 SoftRst,
             BusOp.writeU8 RegControl1
               (ModeCONT ||| Odr10HZ ||| Rng2G ||| Osr512)] ∧
    qDefault.outputDataRate = Odr10HZ ∧ qDefault.outputRange = Rng2G ∧
    qDefault.oversamplingRate = Osr512 ∧
    RegRstPeriod = 0x0b ∧ RegControl2 = 0x0a ∧ SoftRst = 0x80 ∧
    RegControl1 = 0x09 ∧
    (ModeCONT ||| Odr10HZ ||| Rng2G ||| Osr512) = 0x01 :=
  New_init_sequence 0 0 okOpen qDefault okBus trNew rfl

/-- C10: `New` replaces a zero bus id by the default `1` and a zero device
address by the default `0x0d` before opening the bus handle (the trace's
first operation is the open on the substituted pair), stores the
substituted values, and uses nonzero arguments unchanged. -/
theorem New_substitutes_defaults (i2cBus : Int) (address : Nat)
    (openI2C : Nat → Int → Except ε (Bus ε)) (q : QMC) (bus : Bus ε)
    (tr : List BusOp)
    (h : New i2cBus address openI2C = .ok (q, bus, tr)) :
    q.i2cBus = (if i2cBus = 0 then DfltBus else i2cBus) ∧
    q.address = (if address = 0 then DfltAddress else address) ∧
    tr.head? = some (BusOp.openBus q.address q.i2cBus) ∧
    (i2cBus = 0 → q.i2cBus = 1) ∧ (i2cBus ≠ 0 → q.i2cBus = i2cBus) ∧
    (address = 0 → q.address = 0x0d) ∧
    (address ≠ 0 → q.address = address) := by
  simp only [New, SetMode] at h
  split at h
  · exact Except.noConfusion h
  · split at h
    · exact Except.noConfusion h
    · split at h
      · exact Except.noConfusion h
      · split at h
        all_goals
          simp only [Except.ok.injEq, Prod.mk.injEq] at h
          obtain ⟨hq, _, htr⟩ := h
          subst hq
          subst htr
          refine ⟨rfl, rfl, rfl, fun h0 => ?_, fun h0 => ?_,
            fun h0 => ?_, fun h0 => ?_⟩ <;>
            simp [h0, DfltBus, DfltAddress]

/-- Witness for C10: `New 0 0 okOpen` succeeds, both zero arguments are
replaced by the defaults `1` and `0x0d`, and the bus is opened on the
substituted pair. -/
theorem New_substitutes_defaults_witness :
    qDefault.i2cBus = (if (0 : Int) = 0 then DfltBus else 0) ∧
    qDefault.address = (if (0 : Nat) = 0 then DfltAddress else 0) ∧
    trNew.head? = some (BusOp.openBus qDefault.address qDefault.i2cBus) ∧
    ((0 : Int) = 0 → qDefault.i2cBus = 1) ∧
    ((0 : Int) ≠ 0 → qDefault.i2cBus = 0) ∧
    ((0 : Nat) = 0 → qDefault.address = 0x0d) ∧
    ((0 : Nat) ≠ 0 → qDefault.address = 0) :=
  New_substitutes_defaults 0 0 okOpen qDefault okBus trNew rfl

/-- Witness for C1 at the concrete word `0xFFFF`. -/
theorem complement2_decode_encode_witness :
    (0xFFFF < 65536) ∧
    ((0xFFFF < 0x8000 → complement2 0xFFFF = (0xFFFF : Int)) ∧
     (0x8000 ≤ 0xFFFF → complement2 0xFFFF = (0xFFFF : Int) - 65536) ∧
     encode16 (complement2 0xFFFF) = 0xFFFF ∧
     complement2 0x0001 = 1 ∧ complement2 0xFFFF = -1 ∧
     complement2 0x8000 = -32768) :=
  ⟨by decide, complement2_decode_encode 0xFFFF (by decide)⟩

end QMC5883L
